import Mathlib

/-!
Shallow embedding of the offscreen multi-pass render-graph protocol of the
Vulkan example applications (bloom post-processing, shadow mapping, PBR
shading, screenshot capture).

The embedding models command-buffer recording (`buildCommandBuffers`) of the
bloom example (`base/vkx/compute.hpp`) and of the shadow-mapping example
(`unnamed/part_001`) as pure functions from application state to ordered lists
of recorded commands, together with the render-pass attachment descriptions
and subpass dependencies set up by `prepareOffscreen` /
`prepareOffscreenRenderpass`, the descriptor-set bindings set up by
`setupDescriptorSet` / `setupDescriptorSets`, and the per-frame `render`
entry points of the bloom, PBR (`unnamed/part_000`) and screenshot
(`examples/screenshot/screenshot.cpp`) examples.

Continuous scene parameters (camera matrices, animation timer, blur scale)
are floats in the source whose numeric values never influence which commands
are recorded; they are modelled as inert `Int` payloads, and the contents a
uniform-buffer update writes to mapped memory are modelled intensionally as
the tuple of state inputs the source computes them from.
-/

/-- Vulkan image layouts appearing in the examples' attachment descriptions
and descriptor image infos. -/
inductive ImageLayout where
  | undefined
  | general
  | colorAttachmentOptimal
  | depthStencilAttachmentOptimal
  | depthStencilReadOnlyOptimal
  | shaderReadOnlyOptimal
  deriving DecidableEq, Repr

/-- The offscreen render targets (image + paired sampler) of the examples:
the two bloom offscreen color framebuffers (`offscreenPass.framebuffers[0]`,
`offscreenPass.framebuffers[1]` of compute.hpp) and the shadow-map depth
attachment (`offscreenPass.depth` of part_001). -/
inductive RT where
  | bloomFB0
  | bloomFB1
  | shadowDepth
  deriving DecidableEq, Repr

/-- Graphics pipelines created by the examples. -/
inductive Pipeline where
  | blurVert
  | blurHorz
  | glowPass
  | phongPass
  | skyBox
  | quad
  | offscreen
  | sceneShadow
  | sceneShadowPCF
  deriving DecidableEq, Repr

/-- Descriptor sets allocated by the examples (`descriptorSets.*` of
compute.hpp and part_001). -/
inductive DescSet where
  | blurVert
  | blurHorz
  | scene
  | skyBox
  | shadowQuadDebug
  | shadowOffscreen
  | shadowScene
  deriving DecidableEq, Repr

/-- Vertex / index buffers bound during recording. Array-indexed model
selections (`scenes[sceneIndex]`) carry the index. -/
inductive GpuBuffer where
  | ufoVertices
  | ufoIndices
  | ufoGlowVertices
  | ufoGlowIndices
  | skyBoxVertices
  | skyBoxIndices
  | sceneVertices (idx : Nat)
  | sceneIndices (idx : Nat)
  | quadVertices
  | quadIndices
  deriving DecidableEq, Repr

/-- Framebuffers: the two bloom offscreen framebuffers, the shadow-map
offscreen framebuffer, and the per-swapchain-image onscreen framebuffers. -/
inductive Framebuffer where
  | bloomOffscreen (j : Nat)
  | shadowOffscreen
  | swapchain (i : Nat)
  deriving DecidableEq, Repr

/-- Render-pass objects: the bloom offscreen render pass
(`offscreenPass.renderPass` of compute.hpp), the shadow-map offscreen render
pass (`offscreenPass.renderPass` of part_001) and the shared onscreen render
pass (`renderPass` of the base class). -/
inductive RenderPassId where
  | bloomOffscreenRP
  | shadowOffscreenRP
  | mainRP
  deriving DecidableEq, Repr

/-- Commands recorded into a command buffer, one constructor per recording
primitive the examples call. `pipelineBarrier` models vkCmdPipelineBarrier;
no example emits it (cross-pass synchronization is expressed entirely as
subpass dependencies). -/
inductive Cmd where
  | beginRenderPass (rp : RenderPassId) (fb : Framebuffer)
  | endRenderPass
  | setViewport (w h : Nat)
  | setScissor (w h : Nat)
  | setDepthBias
  | bindDescriptorSets (d : DescSet)
  | bindPipeline (p : Pipeline)
  | bindVertexBuffers (b : GpuBuffer)
  | bindIndexBuffer (b : GpuBuffer)
  | drawIndexed (indexCount : Nat)
  | draw (vertexCount : Nat)
  | drawUI
  | pipelineBarrier
  deriving DecidableEq, Repr

/-- One descriptor binding written by `setupDescriptorSet(s)`: the binding
slot and, for combined image samplers that sample an offscreen render target,
which target. Uniform-buffer bindings and ordinary texture bindings (the
skybox cubemap) carry `none`. -/
structure DescriptorBinding where
  binding : Nat
  readsTarget : Option RT
  deriving DecidableEq, Repr

/-- Descriptor writes from compute.hpp `setupDescriptorSet` (blurVert samples
framebuffers[0], blurHorz samples framebuffers[1], scene binds only uniform
buffers, skyBox binds a uniform buffer and the cubemap texture) and part_001
`setupDescriptorSets` (the debug-quad set and the scene set both sample the
shadow-map depth attachment, the offscreen set binds only a uniform
buffer). -/
def setupDescriptorWrites : DescSet → List DescriptorBinding
  | .blurVert => [⟨0, none⟩, ⟨1, some .bloomFB0⟩]
  | .blurHorz => [⟨0, none⟩, ⟨1, some .bloomFB1⟩]
  | .scene => [⟨0, none⟩]
  | .skyBox => [⟨0, none⟩, ⟨1, none⟩]
  | .shadowQuadDebug => [⟨0, none⟩, ⟨1, some .shadowDepth⟩]
  | .shadowOffscreen => [⟨0, none⟩]
  | .shadowScene => [⟨0, none⟩, ⟨1, some .shadowDepth⟩]

/-- The render targets a draw bound to descriptor set `d` samples. -/
def descReads (d : DescSet) : List RT :=
  (setupDescriptorWrites d).filterMap (fun b => b.readsTarget)

/-- The render targets written when rendering into a framebuffer: the bloom
offscreen framebuffers hold color targets FB0 / FB1, the shadow offscreen
framebuffer holds the shadow-map depth target, swapchain framebuffers hold no
offscreen render target. -/
def fbWrites : Framebuffer → List RT
  | .bloomOffscreen 0 => [.bloomFB0]
  | .bloomOffscreen 1 => [.bloomFB1]
  | .bloomOffscreen _ => []
  | .shadowOffscreen => [.shadowDepth]
  | .swapchain _ => []

/-- Uniform-buffer contents, modelled intensionally as the state inputs from
which the source computes them (the float matrix arithmetic itself never
affects recording). -/
inductive UboPayload where
  | sceneUbo (camera timer cameraPos : Int)
  | skyBoxUbo (camera : Int) (width height : Nat)
  | blurParamsUbo (blurScale blurStrength : Int)
  | pbrLightsUbo (animatedTimer : Option Int)
  deriving DecidableEq, Repr

/-- Application state of the bloom example (compute.hpp) as far as recording,
uniform updates and frame submission observe it. `drawCmdBuffers` holds the
recorded contents of the per-swapchain-image command buffers; `submitted`
accumulates the command sequences submitted to the queue. -/
structure BloomState where
  bloom : Bool
  width : Nat
  height : Nat
  swapchainImageCount : Nat
  ufoIndexCount : Nat
  ufoGlowIndexCount : Nat
  skyBoxIndexCount : Nat
  camera : Int
  cameraPos : Int
  timer : Int
  blurScale : Int
  blurStrength : Int
  paused : Bool
  cameraUpdated : Bool
  prepared : Bool
  currentBuffer : Nat
  mappedScene : Option UboPayload
  mappedSkyBox : Option UboPayload
  mappedBlurParams : Option UboPayload
  drawCmdBuffers : List (List Cmd)
  submitted : List (List Cmd)
  deriving DecidableEq, Repr

/-- Commands recorded into command buffer `i` by compute.hpp
`buildCommandBuffers` (lines 385-514): when bloom is enabled, the glow pass
renders the glow mesh into offscreen framebuffer 0 and the vertical-blur pass
renders a fullscreen triangle into offscreen framebuffer 1 sampling
framebuffer 0; the final onscreen pass draws skybox and scene and, when bloom
is enabled, composites with the horizontal blur sampling framebuffer 1. The
offscreen viewport/scissor (FB_DIM = 256) are set before the first offscreen
render pass begins, as in the source. -/
def bloomCmdBuffer (s : BloomState) (i : Nat) : List Cmd :=
  (if s.bloom then
    [Cmd.setViewport 256 256,
     Cmd.setScissor 256 256,
     Cmd.beginRenderPass .bloomOffscreenRP (.bloomOffscreen 0),
     Cmd.bindDescriptorSets .scene,
     Cmd.bindPipeline .glowPass,
     Cmd.bindVertexBuffers .ufoGlowVertices,
     Cmd.bindIndexBuffer .ufoGlowIndices,
     Cmd.drawIndexed s.ufoGlowIndexCount,
     Cmd.endRenderPass,
     Cmd.beginRenderPass .bloomOffscreenRP (.bloomOffscreen 1),
     Cmd.bindDescriptorSets .blurVert,
     Cmd.bindPipeline .blurVert,
     Cmd.draw 3,
     Cmd.endRenderPass]
   else []) ++
  [Cmd.beginRenderPass .mainRP (.swapchain i),
   Cmd.setViewport s.width s.height,
   Cmd.setScissor s.width s.height,
   Cmd.bindDescriptorSets .skyBox,
   Cmd.bindPipeline .skyBox,
   Cmd.bindVertexBuffers .skyBoxVertices,
   Cmd.bindIndexBuffer .skyBoxIndices,
   Cmd.drawIndexed s.skyBoxIndexCount,
   Cmd.bindDescriptorSets .scene,
   Cmd.bindPipeline .phongPass,
   Cmd.bindVertexBuffers .ufoVertices,
   Cmd.bindIndexBuffer .ufoIndices,
   Cmd.drawIndexed s.ufoIndexCount] ++
  (if s.bloom then
    [Cmd.bindDescriptorSets .blurHorz,
     Cmd.bindPipeline .blurHorz,
     Cmd.draw 3]
   else []) ++
  [Cmd.drawUI,
   Cmd.endRenderPass]

/-- compute.hpp `buildCommandBuffers`: re-records every per-swapchain-image
command buffer from the current state (vkBeginCommandBuffer resets previous
contents). -/
def bloomBuildCommandBuffers (s : BloomState) : BloomState :=
  { s with drawCmdBuffers := (List.range s.swapchainImageCount).map (bloomCmdBuffer s) }

/-- compute.hpp `updateUniformBuffersScene`: writes the scene and skybox
uniform-buffer contents (computed from camera, timer and camera position) to
the persistently mapped memory; touches nothing else. -/
def bloomUpdateUniformBuffersScene (s : BloomState) : BloomState :=
  { s with
    mappedScene := some (.sceneUbo s.camera s.timer s.cameraPos)
    mappedSkyBox := some (.skyBoxUbo s.camera s.width s.height) }

/-- compute.hpp `updateUniformBuffersBlur`: writes the blur parameters to the
mapped blur-parameter buffer; touches nothing else. -/
def bloomUpdateUniformBuffersBlur (s : BloomState) : BloomState :=
  { s with mappedBlurParams := some (.blurParamsUbo s.blurScale s.blurStrength) }

/-- compute.hpp `draw`: submits the current swapchain image's recorded
command buffer to the queue. -/
def bloomDraw (s : BloomState) : BloomState :=
  { s with submitted := s.submitted ++ [s.drawCmdBuffers.getD s.currentBuffer []] }

/-- compute.hpp `render` (lines 775-782): returns immediately while not
prepared; otherwise submits the frame and, unless paused without a camera
update, refreshes the scene uniform buffers. -/
def bloomRender (s : BloomState) : BloomState :=
  if !s.prepared then s
  else
    let s1 := bloomDraw s
    if !s1.paused || s1.cameraUpdated then bloomUpdateUniformBuffersScene s1 else s1

/-- UI interactions of compute.hpp `OnUpdateUIOverlay`: the bloom checkbox
re-records the command buffers, the blur-scale input only rewrites the blur
uniform buffer. -/
inductive BloomUIEvent where
  | toggleBloom (v : Bool)
  | setBlurScale (v : Int)
  deriving DecidableEq, Repr

/-- compute.hpp `OnUpdateUIOverlay` (lines 784-793). -/
def bloomOnUpdateUIOverlay (s : BloomState) : BloomUIEvent → BloomState
  | .toggleBloom v => bloomBuildCommandBuffers { s with bloom := v }
  | .setBlurScale v => bloomUpdateUniformBuffersBlur { s with blurScale := v }

/-- Application state of the shadow-mapping example (part_001) as far as
recording observes it. `sceneIndexCounts` gives the index counts of the
loaded scene models (`scenes[0]`, `scenes[1]`). -/
structure ShadowState where
  displayShadowMap : Bool
  filterPCF : Bool
  sceneIndex : Nat
  width : Nat
  height : Nat
  swapchainImageCount : Nat
  sceneIndexCounts : List Nat
  quadIndexCount : Nat
  drawCmdBuffers : List (List Cmd)
  deriving DecidableEq, Repr

/-- Commands recorded into command buffer `i` by part_001
`buildCommandBuffers` (lines 307-407): the first render pass renders the
scene from the light's point of view into the offscreen depth framebuffer
(SHADOWMAP_DIM = 2048); the second, onscreen pass optionally draws the
debug quad visualizing the shadow map, then draws the scene sampling the
shadow map with the PCF or non-PCF pipeline. -/
def shadowCmdBuffer (s : ShadowState) (i : Nat) : List Cmd :=
  [Cmd.beginRenderPass .shadowOffscreenRP .shadowOffscreen,
   Cmd.setViewport 2048 2048,
   Cmd.setScissor 2048 2048,
   Cmd.setDepthBias,
   Cmd.bindPipeline .offscreen,
   Cmd.bindDescriptorSets .shadowOffscreen,
   Cmd.bindVertexBuffers (.sceneVertices s.sceneIndex),
   Cmd.bindIndexBuffer (.sceneIndices s.sceneIndex),
   Cmd.drawIndexed (s.sceneIndexCounts.getD s.sceneIndex 0),
   Cmd.endRenderPass,
   Cmd.beginRenderPass .mainRP (.swapchain i),
   Cmd.setViewport s.width s.height,
   Cmd.setScissor s.width s.height] ++
  (if s.displayShadowMap then
    [Cmd.bindDescriptorSets .shadowQuadDebug,
     Cmd.bindPipeline .quad,
     Cmd.bindVertexBuffers .quadVertices,
     Cmd.bindIndexBuffer .quadIndices,
     Cmd.drawIndexed s.quadIndexCount]
   else []) ++
  [Cmd.bindDescriptorSets .shadowScene,
   Cmd.bindPipeline (if s.filterPCF then .sceneShadowPCF else .sceneShadow),
   Cmd.bindVertexBuffers (.sceneVertices s.sceneIndex),
   Cmd.bindIndexBuffer (.sceneIndices s.sceneIndex),
   Cmd.drawIndexed (s.sceneIndexCounts.getD s.sceneIndex 0),
   Cmd.drawUI,
   Cmd.endRenderPass]

/-- part_001 `buildCommandBuffers`: re-records every per-swapchain-image
command buffer from the current state. -/
def shadowBuildCommandBuffers (s : ShadowState) : ShadowState :=
  { s with drawCmdBuffers := (List.range s.swapchainImageCount).map (shadowCmdBuffer s) }

/-- Application state of the PBR example (part_000) as far as `render` and
`updateLights` observe it. -/
structure PbrState where
  paused : Bool
  timer : Int
  materialIndex : Nat
  objectIndex : Nat
  prepared : Bool
  currentBuffer : Nat
  mappedMatrices : Option UboPayload
  mappedParams : Option UboPayload
  drawCmdBuffers : List (List Cmd)
  submitted : List (List Cmd)
  deriving DecidableEq, Repr

/-- part_000 `updateLights` (lines 363-378): recomputes the light positions
(animated from the timer unless paused) and writes them to the mapped
parameter uniform buffer; touches nothing else. -/
def pbrUpdateLights (s : PbrState) : PbrState :=
  { s with mappedParams := some (.pbrLightsUbo (if s.paused then none else some s.timer)) }

/-- part_000 `draw`: submits the current swapchain image's recorded command
buffer. -/
def pbrDraw (s : PbrState) : PbrState :=
  { s with submitted := s.submitted ++ [s.drawCmdBuffers.getD s.currentBuffer []] }

/-- part_000 `render` (lines 401-407): returns immediately while not
prepared; otherwise submits the frame and, if not paused, updates the
lights. -/
def pbrRender (s : PbrState) : PbrState :=
  if !s.prepared then s
  else
    let s1 := pbrDraw s
    if !s1.paused then pbrUpdateLights s1 else s1

/-- Application state of the screenshot example as far as `render` observes
it. -/
structure ScreenshotState where
  prepared : Bool
  currentBuffer : Nat
  drawCmdBuffers : List (List Cmd)
  submitted : List (List Cmd)
  deriving DecidableEq, Repr

/-- screenshot.cpp `draw`: submits the current swapchain image's recorded
command buffer. -/
def screenshotDraw (s : ScreenshotState) : ScreenshotState :=
  { s with submitted := s.submitted ++ [s.drawCmdBuffers.getD s.currentBuffer []] }

/-- screenshot.cpp `render` (lines 432-436): returns immediately while not
prepared; otherwise submits the frame. -/
def screenshotRender (s : ScreenshotState) : ScreenshotState :=
  if !s.prepared then s else screenshotDraw s

/-- A render pass instance recovered from a recorded command sequence: its
render pass object, target framebuffer, and the render targets sampled by the
draws it contains (in draw order, one entry per sampled target per draw). -/
structure PassInfo where
  rp : RenderPassId
  fb : Framebuffer
  reads : List RT
  deriving DecidableEq, Repr

/-- The targets sampled by a draw under the currently bound descriptor set
(none bound yet means the draw samples nothing). -/
def boundReads : Option DescSet → List RT
  | some d => descReads d
  | none => []

/-- Scan a recorded command sequence, tracking the descriptor set currently
bound (descriptor bindings persist across render-pass boundaries) and the
render pass instance currently open, and collect the finished pass
instances in recording order. -/
def extractPassesGo : List Cmd → Option DescSet → Option (RenderPassId × Framebuffer × List RT) → List PassInfo
  | [], _, some (rp, fb, rs) => [⟨rp, fb, rs⟩]
  | [], _, none => []
  | Cmd.beginRenderPass rp fb :: rest, d, _ => extractPassesGo rest d (some (rp, fb, []))
  | Cmd.endRenderPass :: rest, d, some (rp, fb, rs) => ⟨rp, fb, rs⟩ :: extractPassesGo rest d none
  | Cmd.endRenderPass :: rest, d, none => extractPassesGo rest d none
  | Cmd.bindDescriptorSets d :: rest, _, cur => extractPassesGo rest (some d) cur
  | Cmd.drawIndexed _ :: rest, d, some (rp, fb, rs) =>
      extractPassesGo rest d (some (rp, fb, rs ++ boundReads d))
  | Cmd.draw _ :: rest, d, some (rp, fb, rs) =>
      extractPassesGo rest d (some (rp, fb, rs ++ boundReads d))
  | _ :: rest, d, cur => extractPassesGo rest d cur

/-- The ordered render pass instances of a recorded command sequence. -/
def passesOf (cs : List Cmd) : List PassInfo :=
  extractPassesGo cs none none

/-- The (render pass, framebuffer) identity sequence of the recorded passes. -/
def passFbs (cs : List Cmd) : List (RenderPassId × Framebuffer) :=
  (passesOf cs).map (fun p => (p.rp, p.fb))

/-- Topological validity of an ordered pass sequence: every render target a
pass samples was written by a strictly earlier pass (first argument:
targets written so far), and no pass samples a target its own framebuffer
writes. -/
def readsBeforeWritten : List RT → List PassInfo → Bool
  | _, [] => true
  | written, p :: rest =>
      (p.reads.all fun t => written.contains t && !(fbWrites p.fb).contains t)
      && readsBeforeWritten (written ++ fbWrites p.fb) rest

/-- Number of passes in a sequence that write render target `t`. -/
def writerCount (ps : List PassInfo) (t : RT) : Nat :=
  ps.countP (fun p => (fbWrites p.fb).contains t)

/-- The framebuffers of the passes writing render target `t`, in order. -/
def writerFbs (ps : List PassInfo) (t : RT) : List Framebuffer :=
  (ps.filter (fun p => (fbWrites p.fb).contains t)).map (fun p => p.fb)

/-- Attachment load operations. -/
inductive LoadOp where
  | load
  | clear
  | dontCare
  deriving DecidableEq, Repr

/-- Attachment store operations. -/
inductive StoreOp where
  | store
  | dontCare
  deriving DecidableEq, Repr

/-- A Vulkan attachment description as the examples configure it. -/
structure AttachmentDescription where
  loadOp : LoadOp
  storeOp : StoreOp
  initialLayout : ImageLayout
  finalLayout : ImageLayout
  deriving DecidableEq, Repr

/-- Pipeline stage bits used by the examples' subpass dependencies. -/
inductive StageBit where
  | fragmentShader
  | colorAttachmentOutput
  | earlyFragmentTests
  | lateFragmentTests
  deriving DecidableEq, Repr

/-- Access bits used by the examples' subpass dependencies. -/
inductive AccessBit where
  | shaderRead
  | colorAttachmentWrite
  | depthStencilAttachmentWrite
  deriving DecidableEq, Repr

/-- A subpass dependency; `none` as a subpass index encodes
VK_SUBPASS_EXTERNAL. -/
structure SubpassDependency where
  srcSubpass : Option Nat
  dstSubpass : Option Nat
  srcStageMask : List StageBit
  dstStageMask : List StageBit
  srcAccessMask : List AccessBit
  dstAccessMask : List AccessBit
  deriving DecidableEq, Repr

/-- Color attachment of the bloom offscreen render pass (compute.hpp lines
307-314): cleared on load, stored, and transitioned from undefined to
shader-read-only at render pass end. -/
def bloomOffscreenColorAttachment : AttachmentDescription :=
  ⟨.clear, .store, .undefined, .shaderReadOnlyOptimal⟩

/-- Depth attachment of the bloom offscreen render pass (compute.hpp lines
316-323). -/
def bloomOffscreenDepthAttachment : AttachmentDescription :=
  ⟨.clear, .dontCare, .undefined, .depthStencilAttachmentOptimal⟩

/-- Subpass dependencies of the bloom offscreen render pass (compute.hpp
lines 335-351): external fragment-shader reads complete before color writes
begin, and color writes complete and become visible to fragment-shader reads
at render pass end. -/
def bloomOffscreenDependencies : List SubpassDependency :=
  [⟨none, some 0, [.fragmentShader], [.colorAttachmentOutput],
    [.shaderRead], [.colorAttachmentWrite]⟩,
   ⟨some 0, none, [.colorAttachmentOutput], [.fragmentShader],
    [.colorAttachmentWrite], [.shaderRead]⟩]

/-- Image layout recorded in the bloom offscreen framebuffers' sampling
descriptors (compute.hpp line 288). -/
def bloomFramebufferDescriptorImageLayout : ImageLayout := .shaderReadOnlyOptimal

/-- Depth attachment of the shadow-map offscreen render pass (part_001 lines
184-194): cleared on load, stored, and transitioned from undefined to
depth-stencil-read-only at render pass end. -/
def shadowDepthAttachment : AttachmentDescription :=
  ⟨.clear, .store, .undefined, .depthStencilReadOnlyOptimal⟩

/-- Subpass dependencies of the shadow-map offscreen render pass (part_001
lines 205-221): external fragment-shader reads complete before depth writes
begin, and depth writes complete and become visible to fragment-shader reads
at render pass end. -/
def shadowOffscreenDependencies : List SubpassDependency :=
  [⟨none, some 0, [.fragmentShader], [.earlyFragmentTests],
    [.shaderRead], [.depthStencilAttachmentWrite]⟩,
   ⟨some 0, none, [.lateFragmentTests], [.fragmentShader],
    [.depthStencilAttachmentWrite], [.shaderRead]⟩]

/-- Image layout recorded in the shadow map's sampling descriptors (part_001
line 485). -/
def shadowMapDescriptorImageLayout : ImageLayout := .depthStencilReadOnlyOptimal

/-- Final layout requested for the offscreen depth attachment by the legacy
offscreen shadow-mapping example (shadowmapping.cpp line 499). -/
def legacyOffscreenDepthFinalLayout : ImageLayout := .shaderReadOnlyOptimal

/-- Image layout recorded in the shadow-map sampling descriptor of the legacy
offscreen shadow-mapping example (shadowmapping.cpp line 302). -/
def legacyShadowMapDescriptorImageLayout : ImageLayout := .general

/-- Layouts a sampling consumer can read an attachment under without further
transitions. -/
def ImageLayout.isReadOnlyForSampling : ImageLayout → Bool
  | .shaderReadOnlyOptimal => true
  | .depthStencilReadOnlyOptimal => true
  | _ => false

/-- Outcome of a configuration-time operation in the spec's vocabulary. -/
inductive ConfigStatus where
  | ok
  | configurationError
  deriving DecidableEq, Repr

/-- A pass as declared to the frame render graph: the render targets it
writes and the render targets it reads. -/
structure DeclaredPass where
  writes : List RT
  reads : List RT
  deriving DecidableEq, Repr

/-- Pass registration as realized by the source (`setupDescriptorSet` in
compute.hpp, `setupDescriptorSets` in part_001): the descriptor writes that
bind a pass's declared read targets are emitted unconditionally, without
consulting the current frame sequence, and no configuration-time validation
of read targets against earlier writers exists anywhere in the source; the
only checked failures are device allocation errors. Registration therefore
always succeeds, appending the pass to the sequence. -/
def declarePass (sequence : List DeclaredPass) (p : DeclaredPass) :
    ConfigStatus × List DeclaredPass :=
  (.ok, sequence ++ [p])

/-- Master pass order of the bloom example, fixed at setup (compute.hpp
`prepare` records with the default `bloom = true`): glow pass into offscreen
framebuffer 0, vertical-blur pass into offscreen framebuffer 1, onscreen
composite pass. -/
def masterBloomPasses (i : Nat) : List (RenderPassId × Framebuffer) :=
  [(.bloomOffscreenRP, .bloomOffscreen 0),
   (.bloomOffscreenRP, .bloomOffscreen 1),
   (.mainRP, .swapchain i)]

/-- Which of the master bloom passes survive a given bloom-toggle value: the
two offscreen passes exist only while bloom is enabled. -/
def bloomPassEnabled (bloom : Bool) : RenderPassId × Framebuffer → Bool
  | (.bloomOffscreenRP, _) => bloom
  | _ => true

/-- Master pass order of the shadow-mapping example, fixed at setup:
shadow-map depth pass, then the onscreen scene pass. -/
def masterShadowPasses (i : Nat) : List (RenderPassId × Framebuffer) :=
  [(.shadowOffscreenRP, .shadowOffscreen),
   (.mainRP, .swapchain i)]

/-- Index (from `k`) of the endRenderPass closing the first recorded pass
whose framebuffer writes target `t`; with the offscreen render passes'
final-layout transitions expressed as subpass dependencies, this is the
point in the command order at which `t` becomes readable. -/
def endOfWritingPassIdx : List Cmd → Nat → Option Framebuffer → RT → Option Nat
  | [], _, _, _ => none
  | Cmd.beginRenderPass _ fb :: rest, k, _, t => endOfWritingPassIdx rest (k+1) (some fb) t
  | Cmd.endRenderPass :: rest, k, some fb, t =>
      if (fbWrites fb).contains t then some k else endOfWritingPassIdx rest (k+1) none t
  | _ :: rest, k, cur, t => endOfWritingPassIdx rest (k+1) cur t

/-- Index (from `k`) of the first recorded draw that samples target `t`
(under the descriptor set bound at that point). -/
def firstReadIdx : List Cmd → Nat → Option DescSet → RT → Option Nat
  | [], _, _, _ => none
  | Cmd.bindDescriptorSets d :: rest, k, _, t => firstReadIdx rest (k+1) (some d) t
  | Cmd.drawIndexed _ :: rest, k, d, t =>
      if (boundReads d).contains t then some k else firstReadIdx rest (k+1) d t
  | Cmd.draw _ :: rest, k, d, t =>
      if (boundReads d).contains t then some k else firstReadIdx rest (k+1) d t
  | _ :: rest, k, d, t => firstReadIdx rest (k+1) d t

/-- Equality of bloom-example scene state: everything `buildCommandBuffers`
and the uniform updates can read (toggles, extents, model index counts,
camera, timer, blur parameters), excluding previously recorded or submitted
command-buffer contents. -/
def bloomSceneStateEq (s t : BloomState) : Prop :=
  s.bloom = t.bloom ∧ s.width = t.width ∧ s.height = t.height ∧
  s.swapchainImageCount = t.swapchainImageCount ∧
  s.ufoIndexCount = t.ufoIndexCount ∧ s.ufoGlowIndexCount = t.ufoGlowIndexCount ∧
  s.skyBoxIndexCount = t.skyBoxIndexCount ∧ s.camera = t.camera ∧
  s.cameraPos = t.cameraPos ∧ s.timer = t.timer ∧
  s.blurScale = t.blurScale ∧ s.blurStrength = t.blurStrength

/-- Equality of shadow-example scene state, excluding previously recorded
command-buffer contents. -/
def shadowSceneStateEq (s t : ShadowState) : Prop :=
  s.displayShadowMap = t.displayShadowMap ∧ s.filterPCF = t.filterPCF ∧
  s.sceneIndex = t.sceneIndex ∧ s.width = t.width ∧ s.height = t.height ∧
  s.swapchainImageCount = t.swapchainImageCount ∧
  s.sceneIndexCounts = t.sceneIndexCounts ∧ s.quadIndexCount = t.quadIndexCount

/-- Equality of the discrete bloom-example state (toggle, extents, model
selection data): camera, timer and blur parameters are left unconstrained. -/
def bloomDiscreteEq (s t : BloomState) : Prop :=
  s.bloom = t.bloom ∧ s.width = t.width ∧ s.height = t.height ∧
  s.swapchainImageCount = t.swapchainImageCount ∧
  s.ufoIndexCount = t.ufoIndexCount ∧ s.ufoGlowIndexCount = t.ufoGlowIndexCount ∧
  s.skyBoxIndexCount = t.skyBoxIndexCount

/-- A concrete bloom-example state with bloom enabled, as after `prepare`. -/
def sampleBloomOn : BloomState :=
  { bloom := true, width := 1280, height := 720, swapchainImageCount := 2,
    ufoIndexCount := 3000, ufoGlowIndexCount := 2400, skyBoxIndexCount := 36,
    camera := 7, cameraPos := 0, timer := 0, blurScale := 1, blurStrength := 1,
    paused := false, cameraUpdated := false, prepared := true, currentBuffer := 0,
    mappedScene := none, mappedSkyBox := none, mappedBlurParams := none,
    drawCmdBuffers := [], submitted := [] }

/-- The same state with the bloom toggle disabled. -/
def sampleBloomOff : BloomState :=
  { sampleBloomOn with bloom := false }

/-- The same state before `prepare` completes. -/
def sampleBloomUnprepared : BloomState :=
  { sampleBloomOn with prepared := false }

/-- The same discrete state with different camera, timer and blur-scale
values and different previously recorded buffer contents. -/
def sampleBloomMoved : BloomState :=
  { sampleBloomOn with camera := 9, timer := 5, blurScale := 3,
                       drawCmdBuffers := [[Cmd.drawUI]] }

/-- A concrete shadow-example state at its setup defaults
(displayShadowMap = false, filterPCF = true). -/
def sampleShadowState : ShadowState :=
  { displayShadowMap := false, filterPCF := true, sceneIndex := 0,
    width := 1280, height := 720, swapchainImageCount := 2,
    sceneIndexCounts := [300, 200], quadIndexCount := 6, drawCmdBuffers := [] }

/-- A concrete screenshot-example state before `prepare` completes. -/
def sampleScreenshotUnprepared : ScreenshotState :=
  { prepared := false, currentBuffer := 0, drawCmdBuffers := [], submitted := [] }

/-- A concrete PBR-example state before `prepare` completes. -/
def samplePbrUnprepared : PbrState :=
  { paused := false, timer := 2, materialIndex := 0, objectIndex := 0,
    prepared := false, currentBuffer := 0, mappedMatrices := none,
    mappedParams := none, drawCmdBuffers := [], submitted := [] }

/-- C1: In every frame recorded by the bloom example and by the
shadow-mapping example, whatever the toggle values and scene selection,
every pass that samples a render target is preceded in the recorded order by
the pass that writes that target, and no pass samples a target its own
framebuffer writes (topological validity). -/
theorem frameSequences_topologically_valid :
    (∀ (s : BloomState) (i : Nat),
      readsBeforeWritten [] (passesOf (bloomCmdBuffer s i)) = true) ∧
    (∀ (s : ShadowState) (i : Nat),
      readsBeforeWritten [] (passesOf (shadowCmdBuffer s i)) = true) := by
  constructor
  · intro s i
    cases hb : s.bloom <;>
      simp [bloomCmdBuffer, hb, passesOf, extractPassesGo, readsBeforeWritten,
            boundReads, descReads, setupDescriptorWrites, fbWrites]
  · intro s i
    cases hd : s.displayShadowMap <;> cases hp : s.filterPCF <;>
      simp [shadowCmdBuffer, hd, hp, passesOf, extractPassesGo, readsBeforeWritten,
            boundReads, descReads, setupDescriptorWrites, fbWrites]

/-- C2: In the three-pass bloom frame, the end of the glow pass writing
framebuffer 0 (where the offscreen render pass transitions its color
attachment to its shader-readable final layout) is recorded at index 8,
strictly before the vertical-blur draw sampling framebuffer 0 at index 12;
the end of the vertical-blur pass writing framebuffer 1 is recorded at index
13, strictly before the composite draw sampling framebuffer 1 at index 29;
no explicit pipeline barrier is recorded, the offscreen render pass instead
carrying the subpass dependency that orders color-attachment writes before
fragment-shader reads, with the attachment transitioned to shader-read-only
at render pass end. -/
theorem recordFrame_transitions_precede_readers (s : BloomState) (i : Nat)
    (h : s.bloom = true) :
    endOfWritingPassIdx (bloomCmdBuffer s i) 0 none .bloomFB0 = some 8 ∧
    firstReadIdx (bloomCmdBuffer s i) 0 none .bloomFB0 = some 12 ∧
    (8 : Nat) < 12 ∧
    endOfWritingPassIdx (bloomCmdBuffer s i) 0 none .bloomFB1 = some 13 ∧
    firstReadIdx (bloomCmdBuffer s i) 0 none .bloomFB1 = some 29 ∧
    (13 : Nat) < 29 ∧
    Cmd.pipelineBarrier ∉ bloomCmdBuffer s i ∧
    (⟨some 0, none, [.colorAttachmentOutput], [.fragmentShader],
      [.colorAttachmentWrite], [.shaderRead]⟩ : SubpassDependency)
      ∈ bloomOffscreenDependencies ∧
    bloomOffscreenColorAttachment.finalLayout = ImageLayout.shaderReadOnlyOptimal := by
  refine ⟨?_, ?_, by decide, ?_, ?_, by decide, ?_, by decide, rfl⟩ <;>
    simp [bloomCmdBuffer, h, endOfWritingPassIdx, firstReadIdx, fbWrites,
          boundReads, descReads, setupDescriptorWrites]

/-- C2 witness: the ordering facts instantiated at a concrete bloom-enabled
state and swapchain image 0. -/
theorem recordFrame_transitions_precede_readers_witness :
    sampleBloomOn.bloom = true ∧
    (endOfWritingPassIdx (bloomCmdBuffer sampleBloomOn 0) 0 none .bloomFB0 = some 8 ∧
     firstReadIdx (bloomCmdBuffer sampleBloomOn 0) 0 none .bloomFB0 = some 12 ∧
     (8 : Nat) < 12 ∧
     endOfWritingPassIdx (bloomCmdBuffer sampleBloomOn 0) 0 none .bloomFB1 = some 13 ∧
     firstReadIdx (bloomCmdBuffer sampleBloomOn 0) 0 none .bloomFB1 = some 29 ∧
     (13 : Nat) < 29 ∧
     Cmd.pipelineBarrier ∉ bloomCmdBuffer sampleBloomOn 0 ∧
     (⟨some 0, none, [.colorAttachmentOutput], [.fragmentShader],
       [.colorAttachmentWrite], [.shaderRead]⟩ : SubpassDependency)
       ∈ bloomOffscreenDependencies ∧
     bloomOffscreenColorAttachment.finalLayout = ImageLayout.shaderReadOnlyOptimal) :=
  ⟨rfl, recordFrame_transitions_precede_readers sampleBloomOn 0 rfl⟩

/-- C3 counterexample: registering a pass that reads framebuffer 0 into an
empty frame sequence with no writer declared succeeds; it does not produce
a configuration error, because the source performs no dependency
validation. -/
theorem declarePass_dangling_read_not_error :
    (declarePass [] ⟨[], [RT.bloomFB0]⟩).1 = ConfigStatus.ok ∧
    (declarePass [] ⟨[], [RT.bloomFB0]⟩).1 ≠ ConfigStatus.configurationError := by
  exact ⟨rfl, by decide⟩

/-- C3 amended: pass registration as realized by the source never fails with
a configuration error; it unconditionally succeeds and appends the declared
pass, whatever read targets it declares and whatever the current sequence
contains. -/
theorem declarePass_always_succeeds (sequence : List DeclaredPass) (p : DeclaredPass) :
    (declarePass sequence p).1 = ConfigStatus.ok ∧
    (declarePass sequence p).2 = sequence ++ [p] :=
  ⟨rfl, rfl⟩

/-- C4: With the bloom toggle disabled, the recorded frame contains neither
of the offscreen writer passes (no offscreen render pass instance) nor the
reading draws (no blur descriptor set is ever bound), every recorded pass
samples nothing, and the recorded sequence remains topologically valid —
removing the writers together with their sole consumers leaves no dangling
read. -/
theorem bloom_disabled_no_dangling_read (s : BloomState) (i : Nat)
    (h : s.bloom = false) :
    (∀ j, Cmd.beginRenderPass .bloomOffscreenRP (.bloomOffscreen j) ∉ bloomCmdBuffer s i) ∧
    Cmd.bindDescriptorSets .blurVert ∉ bloomCmdBuffer s i ∧
    Cmd.bindDescriptorSets .blurHorz ∉ bloomCmdBuffer s i ∧
    ((passesOf (bloomCmdBuffer s i)).all fun p => p.reads.isEmpty) = true ∧
    readsBeforeWritten [] (passesOf (bloomCmdBuffer s i)) = true := by
  refine ⟨fun j => ?_, ?_, ?_, ?_, ?_⟩ <;>
    simp [bloomCmdBuffer, h, passesOf, extractPassesGo, readsBeforeWritten,
          boundReads, descReads, setupDescriptorWrites, fbWrites]

/-- C4 witness: instantiated at a concrete bloom-disabled state. -/
theorem bloom_disabled_no_dangling_read_witness :
    sampleBloomOff.bloom = false ∧
    ((∀ j, Cmd.beginRenderPass .bloomOffscreenRP (.bloomOffscreen j) ∉ bloomCmdBuffer sampleBloomOff 0) ∧
     Cmd.bindDescriptorSets .blurVert ∉ bloomCmdBuffer sampleBloomOff 0 ∧
     Cmd.bindDescriptorSets .blurHorz ∉ bloomCmdBuffer sampleBloomOff 0 ∧
     ((passesOf (bloomCmdBuffer sampleBloomOff 0)).all fun p => p.reads.isEmpty) = true ∧
     readsBeforeWritten [] (passesOf (bloomCmdBuffer sampleBloomOff 0)) = true) :=
  ⟨rfl, bloom_disabled_no_dangling_read sampleBloomOff 0 rfl⟩

/-- C5: Recording is deterministic in the scene state: two states that agree
on everything the recording reads (toggles, extents, model data) — but may
differ in previously recorded or submitted command-buffer contents — record
identical ordered command sequences, in the bloom example and in the
shadow-mapping example alike. -/
theorem buildCommandBuffers_deterministic :
    (∀ s t : BloomState, bloomSceneStateEq s t →
      (bloomBuildCommandBuffers s).drawCmdBuffers = (bloomBuildCommandBuffers t).drawCmdBuffers) ∧
    (∀ s t : ShadowState, shadowSceneStateEq s t →
      (shadowBuildCommandBuffers s).drawCmdBuffers = (shadowBuildCommandBuffers t).drawCmdBuffers) := by
  constructor
  · intro s t h
    obtain ⟨h1, h2, h3, h4, h5, h6, h7, h8, h9, h10, h11, h12⟩ := h
    simp only [bloomBuildCommandBuffers, h4]
    refine List.map_congr_left ?_
    intro a _
    simp only [bloomCmdBuffer, h1, h2, h3, h5, h6, h7]
  · intro s t h
    obtain ⟨h1, h2, h3, h4, h5, h6, h7, h8⟩ := h
    simp only [shadowBuildCommandBuffers, h6]
    refine List.map_congr_left ?_
    intro a _
    simp only [shadowCmdBuffer, h1, h2, h3, h4, h5, h7, h8]

/-- C5 witness: re-recording the concrete bloom and shadow states on top of
their own previous recording yields the same command sequences. -/
theorem buildCommandBuffers_deterministic_witness :
    bloomSceneStateEq sampleBloomOn (bloomBuildCommandBuffers sampleBloomOn) ∧
    shadowSceneStateEq sampleShadowState (shadowBuildCommandBuffers sampleShadowState) ∧
    (bloomBuildCommandBuffers sampleBloomOn).drawCmdBuffers =
      (bloomBuildCommandBuffers (bloomBuildCommandBuffers sampleBloomOn)).drawCmdBuffers ∧
    (shadowBuildCommandBuffers sampleShadowState).drawCmdBuffers =
      (shadowBuildCommandBuffers (shadowBuildCommandBuffers sampleShadowState)).drawCmdBuffers :=
  ⟨⟨rfl, rfl, rfl, rfl, rfl, rfl, rfl, rfl, rfl, rfl, rfl, rfl⟩,
   ⟨rfl, rfl, rfl, rfl, rfl, rfl, rfl, rfl⟩,
   buildCommandBuffers_deterministic.1 sampleBloomOn (bloomBuildCommandBuffers sampleBloomOn)
     ⟨rfl, rfl, rfl, rfl, rfl, rfl, rfl, rfl, rfl, rfl, rfl, rfl⟩,
   buildCommandBuffers_deterministic.2 sampleShadowState (shadowBuildCommandBuffers sampleShadowState)
     ⟨rfl, rfl, rfl, rfl, rfl, rfl, rfl, rfl⟩⟩

/-- C6: The pass ordering is static. For every value of the bloom toggle the
recorded bloom frame's pass sequence is exactly the setup-time master order
filtered by the toggle (so toggles only skip or re-include passes, never
reorder); and for every combination of the shadow example's toggles
(displayShadowMap, filterPCF) and scene selection the recorded pass sequence
is exactly the fixed master order, unchanged. -/
theorem pass_order_static :
    (∀ (s : BloomState) (i : Nat),
      passFbs (bloomCmdBuffer s i) = (masterBloomPasses i).filter (bloomPassEnabled s.bloom)) ∧
    (∀ (s : ShadowState) (i : Nat),
      passFbs (shadowCmdBuffer s i) = masterShadowPasses i) := by
  constructor
  · intro s i
    cases hb : s.bloom <;>
      simp [bloomCmdBuffer, hb, passFbs, passesOf, extractPassesGo, masterBloomPasses,
            bloomPassEnabled, boundReads, descReads, setupDescriptorWrites]
  · intro s i
    cases hd : s.displayShadowMap <;> cases hp : s.filterPCF <;>
      simp [shadowCmdBuffer, hd, hp, passFbs, passesOf, extractPassesGo,
            masterShadowPasses, boundReads, descReads, setupDescriptorWrites]

/-- C7 counterexample: the shadow-mapping example's depth render target is
consumed by the later onscreen scene pass, yet its final layout is
depth-stencil-read-only, not the shader-read-only layout the claim names as
the single layout shared by every example. -/
theorem shadow_final_layout_not_shared_shaderReadOnly :
    ((passesOf (shadowCmdBuffer sampleShadowState 0)).map fun p => p.reads)
      = [[], [RT.shadowDepth]] ∧
    shadowDepthAttachment.finalLayout = ImageLayout.depthStencilReadOnlyOptimal ∧
    shadowDepthAttachment.finalLayout ≠ ImageLayout.shaderReadOnlyOptimal := by
  exact ⟨by decide, rfl, by decide⟩

/-- C7 amended: every render target consumed by a later pass is transitioned
at render pass end to one fixed sampling-compatible read-only final layout
that all its sampling descriptors in that example record, but the layout is
per-example rather than a single shared shader-read-only layout: the bloom
color targets use shader-read-only, the shadow-mapping depth target (also
read back for the debug-quad visualization) uses depth-stencil-read-only;
the legacy offscreen example requests shader-read-only as the depth final
layout while its sampling descriptor records the general layout. -/
theorem final_layouts_readonly_per_example :
    (bloomOffscreenColorAttachment.finalLayout = ImageLayout.shaderReadOnlyOptimal ∧
     bloomFramebufferDescriptorImageLayout = bloomOffscreenColorAttachment.finalLayout ∧
     bloomOffscreenColorAttachment.finalLayout.isReadOnlyForSampling = true) ∧
    (shadowDepthAttachment.finalLayout = ImageLayout.depthStencilReadOnlyOptimal ∧
     shadowMapDescriptorImageLayout = shadowDepthAttachment.finalLayout ∧
     shadowDepthAttachment.finalLayout.isReadOnlyForSampling = true) ∧
    (legacyOffscreenDepthFinalLayout = ImageLayout.shaderReadOnlyOptimal ∧
     legacyShadowMapDescriptorImageLayout = ImageLayout.general) := by
  decide

/-- C8: Within any single recorded frame, no render target has two writer
passes: every target is written by at most one pass in every toggle
configuration; in the bloom-enabled frame framebuffer 0 is written only by
the glow pass and framebuffer 1 only by the vertical-blur pass, in every
shadow frame the depth target is written only by the offscreen pass, and
every sampled target was written by a strictly earlier pass. -/
theorem renderTarget_single_writer :
    (∀ (s : BloomState) (i : Nat) (t : RT),
      writerCount (passesOf (bloomCmdBuffer s i)) t ≤ 1) ∧
    (∀ (s : BloomState) (i : Nat), s.bloom = true →
      writerFbs (passesOf (bloomCmdBuffer s i)) RT.bloomFB0 = [.bloomOffscreen 0] ∧
      writerFbs (passesOf (bloomCmdBuffer s i)) RT.bloomFB1 = [.bloomOffscreen 1]) ∧
    (∀ (s : ShadowState) (i : Nat) (t : RT),
      writerCount (passesOf (shadowCmdBuffer s i)) t ≤ 1) ∧
    (∀ (s : ShadowState) (i : Nat),
      writerFbs (passesOf (shadowCmdBuffer s i)) RT.shadowDepth = [.shadowOffscreen]) ∧
    (∀ (s : BloomState) (i : Nat),
      readsBeforeWritten [] (passesOf (bloomCmdBuffer s i)) = true) := by
  refine ⟨?_, ?_, ?_, ?_, ?_⟩
  · intro s i t
    cases hb : s.bloom <;> cases t <;>
      simp [bloomCmdBuffer, hb, writerCount, passesOf, extractPassesGo, fbWrites,
            boundReads, descReads, setupDescriptorWrites]
  · intro s i h
    constructor <;>
      simp [bloomCmdBuffer, h, writerFbs, passesOf, extractPassesGo, fbWrites,
            boundReads, descReads, setupDescriptorWrites]
  · intro s i t
    cases hd : s.displayShadowMap <;> cases hp : s.filterPCF <;> cases t <;>
      simp [shadowCmdBuffer, hd, hp, writerCount, passesOf, extractPassesGo, fbWrites,
            boundReads, descReads, setupDescriptorWrites]
  · intro s i
    cases hd : s.displayShadowMap <;> cases hp : s.filterPCF <;>
      simp [shadowCmdBuffer, hd, hp, writerFbs, passesOf, extractPassesGo, fbWrites,
            boundReads, descReads, setupDescriptorWrites]
  · intro s i
    cases hb : s.bloom <;>
      simp [bloomCmdBuffer, hb, passesOf, extractPassesGo, readsBeforeWritten,
            boundReads, descReads, setupDescriptorWrites, fbWrites]

/-- C8 witness: the single-writer facts instantiated at the concrete
bloom-enabled state. -/
theorem renderTarget_single_writer_witness :
    sampleBloomOn.bloom = true ∧
    (writerFbs (passesOf (bloomCmdBuffer sampleBloomOn 0)) RT.bloomFB0 = [.bloomOffscreen 0] ∧
     writerFbs (passesOf (bloomCmdBuffer sampleBloomOn 0)) RT.bloomFB1 = [.bloomOffscreen 1]) :=
  ⟨rfl, renderTarget_single_writer.2.1 sampleBloomOn 0 rfl⟩

/-- C9: In the bloom, screenshot and PBR examples, calling render before
prepare has completed (prepared still false) is a no-op: it submits nothing,
updates no uniform buffer, and returns the state unchanged. -/
theorem render_unprepared_noop :
    (∀ s : BloomState, s.prepared = false → bloomRender s = s) ∧
    (∀ s : ScreenshotState, s.prepared = false → screenshotRender s = s) ∧
    (∀ s : PbrState, s.prepared = false → pbrRender s = s) := by
  refine ⟨fun s h => ?_, fun s h => ?_, fun s h => ?_⟩ <;>
    simp [bloomRender, screenshotRender, pbrRender, h]

/-- C9 witness: instantiated at concrete unprepared states of the three
examples. -/
theorem render_unprepared_noop_witness :
    sampleBloomUnprepared.prepared = false ∧
    sampleScreenshotUnprepared.prepared = false ∧
    samplePbrUnprepared.prepared = false ∧
    bloomRender sampleBloomUnprepared = sampleBloomUnprepared ∧
    screenshotRender sampleScreenshotUnprepared = sampleScreenshotUnprepared ∧
    pbrRender samplePbrUnprepared = samplePbrUnprepared :=
  ⟨rfl, rfl, rfl,
   render_unprepared_noop.1 sampleBloomUnprepared rfl,
   render_unprepared_noop.2.1 sampleScreenshotUnprepared rfl,
   render_unprepared_noop.2.2 samplePbrUnprepared rfl⟩

/-- C10: The recorded command sequence is independent of continuous scene
state: two bloom states agreeing on the discrete state (toggle, extents,
model data) record identical command sequences whatever their camera, timer
and blur parameters; the scene and blur uniform updates write only mapped
uniform memory and leave the recorded buffers untouched; the blur-scale UI
input triggers only the blur uniform update, rewriting the mapped blur
parameters without re-recording; and the PBR light animation likewise leaves
the recorded buffers untouched. -/
theorem commands_independent_of_continuous_state :
    (∀ s t : BloomState, bloomDiscreteEq s t →
      (bloomBuildCommandBuffers s).drawCmdBuffers = (bloomBuildCommandBuffers t).drawCmdBuffers) ∧
    (∀ s : BloomState,
      (bloomUpdateUniformBuffersScene s).drawCmdBuffers = s.drawCmdBuffers ∧
      (bloomUpdateUniformBuffersBlur s).drawCmdBuffers = s.drawCmdBuffers) ∧
    (∀ (s : BloomState) (v : Int),
      (bloomOnUpdateUIOverlay s (.setBlurScale v)).drawCmdBuffers = s.drawCmdBuffers ∧
      (bloomOnUpdateUIOverlay s (.setBlurScale v)).mappedBlurParams =
        some (.blurParamsUbo v s.blurStrength)) ∧
    (∀ s : PbrState, (pbrUpdateLights s).drawCmdBuffers = s.drawCmdBuffers) := by
  refine ⟨?_, fun s => ⟨rfl, rfl⟩, fun s v => ⟨rfl, rfl⟩, fun s => rfl⟩
  intro s t h
  obtain ⟨h1, h2, h3, h4, h5, h6, h7⟩ := h
  simp only [bloomBuildCommandBuffers, h4]
  refine List.map_congr_left ?_
  intro a _
  simp only [bloomCmdBuffer, h1, h2, h3, h5, h6, h7]

/-- C10 witness: two concrete states differing in camera, timer, blur scale
and previously recorded contents, but equal on the discrete state, record
identical command sequences. -/
theorem commands_independent_of_continuous_state_witness :
    bloomDiscreteEq sampleBloomOn sampleBloomMoved ∧
    sampleBloomOn.camera ≠ sampleBloomMoved.camera ∧
    sampleBloomOn.timer ≠ sampleBloomMoved.timer ∧
    sampleBloomOn.blurScale ≠ sampleBloomMoved.blurScale ∧
    (bloomBuildCommandBuffers sampleBloomOn).drawCmdBuffers =
      (bloomBuildCommandBuffers sampleBloomMoved).drawCmdBuffers :=
  ⟨⟨rfl, rfl, rfl, rfl, rfl, rfl, rfl⟩, by decide, by decide, by decide,
   commands_independent_of_continuous_state.1 sampleBloomOn sampleBloomMoved
     ⟨rfl, rfl, rfl, rfl, rfl, rfl, rfl⟩⟩
